import Mathlib

/-!
Verification of the yuzu-mainline excerpt: the emulated wall clock
(`src/common/wall_clock.cpp`) and the GameCube-adapter input binding
capture protocol (`src/input_common/gcadapter/gc_poller.cpp`).

Machine integers are embedded as `Nat` with explicit `% 2^w` where the
C++ type could wrap; byte-valued axis readings are `Nat` (range 0..255);
C++ `float` arithmetic on axis values is embedded over `ℚ` (every value
that reaches a comparison is an exact multiple of 1/128, and no multiple
of 1/128 lies between a spec constant such as 1/10 and its nearest
binary floating-point approximation, so the rational model decides every
comparison exactly as the float code does); the analog stick's
square-root arithmetic is embedded over `ℝ`.
-/

namespace Common

/-- Modelled from the spec: `Common::Multiply64Into128` lives in
`common/uint128.h`, which is not part of the excerpt; per the spec it
returns the full 128-bit product of its two 64-bit operands. -/
def Multiply64Into128 (a b : Nat) : Nat :=
  (a % 2 ^ 64) * (b % 2 ^ 64)

/-- Modelled from the spec: `Common::Divide128On32` lives in
`common/uint128.h`, which is not part of the excerpt; per the spec it
performs an exact integer division of a 128-bit dividend by a 32-bit
divisor, truncating toward zero, returning the 64-bit quotient word
first and the remainder second. -/
def Divide128On32 (n d : Nat) : Nat × Nat :=
  ((n % 2 ^ 128) / (d % 2 ^ 32) % 2 ^ 64, (n % 2 ^ 128) % (d % 2 ^ 32))

/-- The constructor-supplied frequencies of `Common::StandardWallClock`
(`wall_clock.cpp` lines 19-24): a CPU-domain frequency and a
peripheral-clock-domain frequency, both immutable after construction.
The monotonic start instant is externalized: each cycle query below
takes the elapsed nanosecond count `t` (what `GetTimeNS` would report)
as an explicit argument. -/
structure StandardWallClock where
  emulated_cpu_frequency : Nat
  emulated_clock_frequency : Nat

/-- `StandardWallClock::GetClockCycles` (`wall_clock.cpp` lines 44-49):
multiply the elapsed nanoseconds into a 128-bit intermediate product and
divide by 1e9, keeping the quotient. -/
def StandardWallClock.GetClockCycles (clock : StandardWallClock) (t : Nat) : Nat :=
  (Divide128On32 (Multiply64Into128 t clock.emulated_clock_frequency) 1000000000).1

/-- `StandardWallClock::GetCPUCycles` (`wall_clock.cpp` lines 51-55):
the same conversion against the CPU-domain frequency. -/
def StandardWallClock.GetCPUCycles (clock : StandardWallClock) (t : Nat) : Nat :=
  (Divide128On32 (Multiply64Into128 t clock.emulated_cpu_frequency) 1000000000).1

/-- Ten years expressed in nanoseconds (366-day years, an upper bound
for any reading of "10 years"). -/
def tenYearsNs : Nat := 10 * 366 * 24 * 60 * 60 * 1000000000

/-- The binding parameter set (`Common::ParamPackage`): an ordered
string-keyed mapping. The keys touched by this excerpt are fixed, so the
package is embedded as one optional field per key; `Set` overwrites a
field, `Get` with a default reads it with `Option.getD`. The numeric
threshold strings "0.5" / "-0.5" are embedded as the rationals they
denote. -/
structure ParamPackage where
  engine : Option String := none
  port : Option Int := none
  button : Option Nat := none
  axis : Option Nat := none
  direction : Option String := none
  threshold : Option ℚ := none
  axis_x : Option Int := none
  axis_y : Option Int := none
  deadzone : Option ℚ := none
deriving DecidableEq

end Common

namespace GCAdapter

/-- Modelled from the spec: the digital button bit constants declared in
`input_common/gcadapter/gc_adapter.h` (not part of the excerpt). Each is
a distinct single bit of the 16-bit button mask; the claims depend only
on their distinctness and on the fixed order in which
`GCButtonFactory::GetNextInput` tests them. -/
def PAD_BUTTON_LEFT : Nat := 1

/-- Modelled from the spec: see `PAD_BUTTON_LEFT`. -/
def PAD_BUTTON_RIGHT : Nat := 2

/-- Modelled from the spec: see `PAD_BUTTON_LEFT`. -/
def PAD_BUTTON_DOWN : Nat := 4

/-- Modelled from the spec: see `PAD_BUTTON_LEFT`. -/
def PAD_BUTTON_UP : Nat := 8

/-- Modelled from the spec: see `PAD_BUTTON_LEFT`. -/
def PAD_TRIGGER_Z : Nat := 16

/-- Modelled from the spec: see `PAD_BUTTON_LEFT`. -/
def PAD_TRIGGER_R : Nat := 32

/-- Modelled from the spec: see `PAD_BUTTON_LEFT`. -/
def PAD_TRIGGER_L : Nat := 64

/-- Modelled from the spec: see `PAD_BUTTON_LEFT`. -/
def PAD_BUTTON_A : Nat := 256

/-- Modelled from the spec: see `PAD_BUTTON_LEFT`. -/
def PAD_BUTTON_B : Nat := 512

/-- Modelled from the spec: see `PAD_BUTTON_LEFT`. -/
def PAD_BUTTON_X : Nat := 1024

/-- Modelled from the spec: see `PAD_BUTTON_LEFT`. -/
def PAD_BUTTON_Y : Nat := 2048

/-- Modelled from the spec: see `PAD_BUTTON_LEFT`. -/
def PAD_BUTTON_START : Nat := 4096

/-- Modelled from the spec: the STICK sentinel button value declared in
`gc_adapter.h` (not part of the excerpt), stored in the `button` key of
an axis-as-button binding. -/
def PAD_STICK : Nat := 8192

/-- Modelled from the spec: one immutable pad sample
(`GCAdapter::GCPadStatus`, declared in `gc_adapter.h`, not part of the
excerpt). Per the spec's data model it carries a button bit mask, an
optional axis id (`none` embeds `PadAxes::Undefined`), and a raw axis
byte in [0, 255]. -/
structure GCPadStatus where
  button : Nat
  axis : Option Nat
  axis_value : Nat
deriving DecidableEq

end GCAdapter

namespace InputCommon

/-- The four per-port sample queues (`adapter->GetPadQueue()[i]` for
`i = 0..3`), each a FIFO with its head at the front of the list. -/
structure PadQueues where
  q0 : List GCAdapter.GCPadStatus
  q1 : List GCAdapter.GCPadStatus
  q2 : List GCAdapter.GCPadStatus
  q3 : List GCAdapter.GCPadStatus
deriving DecidableEq

/-- The ordered list of button bits tested by
`GCButtonFactory::GetNextInput` (`gc_poller.cpp` lines 98-145), in
source order. -/
def buttonTestOrder : List Nat :=
  [GCAdapter.PAD_BUTTON_A, GCAdapter.PAD_BUTTON_B, GCAdapter.PAD_BUTTON_X,
   GCAdapter.PAD_BUTTON_Y, GCAdapter.PAD_BUTTON_DOWN, GCAdapter.PAD_BUTTON_LEFT,
   GCAdapter.PAD_BUTTON_RIGHT, GCAdapter.PAD_BUTTON_UP, GCAdapter.PAD_TRIGGER_L,
   GCAdapter.PAD_TRIGGER_R, GCAdapter.PAD_TRIGGER_Z, GCAdapter.PAD_BUTTON_START]

/-- The first button bit of the fixed test order present in a sample's
mask, if any (the cascade of `if (pad.button & ...)` tests at
`gc_poller.cpp` lines 98-145). -/
def matchButton (mask : Nat) : Option Nat :=
  buttonTestOrder.find? (fun b => mask &&& b != 0)

/-- The drain loop that `GCButtonFactory::GetNextInput` runs for one
port (`gc_poller.cpp` lines 92-159): pop samples until one matches a
button bit or carries a defined axis; every popped sample stamps the
`engine` and `port` keys; on a button match the `button` key is set; on
the axis fallback the `axis`, `button` (STICK sentinel), `direction` and
`threshold` keys are set, with direction "+" and threshold "0.5" when
the raw axis byte exceeds 128 and direction "-" and threshold "-0.5"
otherwise. The unpopped remainder of the queue is returned. -/
def buttonDrainPort (i : Int) :
    List GCAdapter.GCPadStatus → Common.ParamPackage →
    Common.ParamPackage × List GCAdapter.GCPadStatus
  | [], params => (params, [])
  | pad :: rest, params =>
    let params := { params with engine := some "gcpad", port := some i }
    match matchButton pad.button with
    | some b => ({ params with button := some b }, rest)
    | none =>
      match pad.axis with
      | some a =>
        let withAxis := { params with axis := some a, button := some GCAdapter.PAD_STICK }
        if pad.axis_value > 128 then
          ({ withAxis with direction := some "+", threshold := some (1 / 2 : ℚ) }, rest)
        else
          ({ withAxis with direction := some "-", threshold := some (-(1 / 2) : ℚ) }, rest)
      | none => buttonDrainPort i rest params

/-- `GCButtonFactory::GetNextInput` (`gc_poller.cpp` lines 88-162): the
outer `for` loop visits the four ports in order; a `break` on a matched
sample leaves only that port's inner `while` loop, so later ports are
still drained and their `Set` calls overwrite the keys written by
earlier ports. Returns the single parameter package together with the
remaining queues. -/
def GCButtonFactory.GetNextInput (qs : PadQueues) :
    Common.ParamPackage × PadQueues :=
  let r0 := buttonDrainPort 0 qs.q0 {}
  let r1 := buttonDrainPort 1 qs.q1 r0.1
  let r2 := buttonDrainPort 2 qs.q2 r1.1
  let r3 := buttonDrainPort 3 qs.q3 r2.1
  (r3.1, ⟨r0.2, r1.2, r2.2, r3.2⟩)

/-- A sample that ends the drain loop of one port: it matches a button
bit or carries a defined axis. -/
def isBindingSample (pad : GCAdapter.GCPadStatus) : Bool :=
  (matchButton pad.button).isSome || pad.axis.isSome

/-- What one invocation leaves of one port's queue: everything strictly
after the first binding-producing sample, or nothing when no sample
produces a binding. -/
def drainRemainder (q : List GCAdapter.GCPadStatus) : List GCAdapter.GCPadStatus :=
  (q.dropWhile (fun pad => !isBindingSample pad)).tail

/-- `GCButton` (`gc_poller.cpp` lines 15-30): a digital button device. -/
structure GCButton where
  port : Int
  button : Nat
deriving DecidableEq

/-- `GCAxisButton` (`gc_poller.cpp` lines 32-53): an axis-as-button
device; `threshold` is stored at construction. -/
structure GCAxisButton where
  port : Int
  axis : Nat
  threshold : ℚ
  trigger_if_greater : Bool
deriving DecidableEq

/-- `GCAxisButton::GetStatus` (`gc_poller.cpp` lines 39-45): normalize
the raw axis byte of the live per-port snapshot (`axes : port → axis →
byte`) to `(raw - 128)/128` and compare against the fixed 0.10 constant
in the configured direction; the stored `threshold` field is not read. -/
def GCAxisButton.GetStatus (dev : GCAxisButton) (axes : Int → Nat → Nat) : Bool :=
  let axis_value : ℚ := ((axes dev.port dev.axis : ℚ) - 128) / 128
  if dev.trigger_if_greater then
    decide (axis_value > 1 / 10)
  else
    decide (axis_value < -(1 / 10))

/-- The closed set of button devices `GCButtonFactory::Create` can
return. -/
inductive ButtonDevice where
  | gcbutton : GCButton → ButtonDevice
  | gcaxisbutton : GCAxisButton → ButtonDevice
deriving DecidableEq

/-- `GCButtonFactory::Create` (`gc_poller.cpp` lines 63-86): rebuild a
device from a stored parameter set. Missing keys fall back to fixed
defaults (`button` 0, `port` 0, `axis` 0, `threshold` 0.5, `direction`
""); a direction that is neither "+" nor "-" yields
`trigger_if_greater = true` after a `LOG_ERROR`, reported here as the
second (Bool) component. -/
def GCButtonFactory.Create (params : Common.ParamPackage) : ButtonDevice × Bool :=
  let button_id := params.button.getD 0
  let port := params.port.getD 0
  match params.axis with
  | some axis =>
    let threshold := params.threshold.getD (1 / 2)
    let direction_name := params.direction.getD ""
    if direction_name = "+" then
      (ButtonDevice.gcaxisbutton ⟨port, axis, threshold, true⟩, false)
    else if direction_name = "-" then
      (ButtonDevice.gcaxisbutton ⟨port, axis, threshold, false⟩, false)
    else
      (ButtonDevice.gcaxisbutton ⟨port, axis, threshold, true⟩, true)
  | none => (ButtonDevice.gcbutton ⟨port, button_id⟩, false)

/-- `GCAnalog` (`gc_poller.cpp` lines 180-242): an analog stick device. -/
structure GCAnalog where
  port : Int
  axis_x : Int
  axis_y : Int
  deadzone : ℚ
deriving DecidableEq

/-- `GCAnalog::GetAxis` (`gc_poller.cpp` lines 185-191): normalize the
raw axis byte of the live snapshot with divisor 95 (not 128), embedded
over `ℝ`. -/
noncomputable def GCAnalog.GetAxis (dev : GCAnalog) (axes : Int → Int → Nat)
    (axis : Int) : ℝ :=
  ((axes dev.port axis : ℝ) - 128) / 95

/-- `GCAnalog::GetAnalog` (`gc_poller.cpp` lines 193-207): read the two
configured axes and pull the vector back onto the unit circle when its
squared radius exceeds 1. -/
noncomputable def GCAnalog.GetAnalog (dev : GCAnalog) (axes : Int → Int → Nat) :
    ℝ × ℝ :=
  let x := dev.GetAxis axes dev.axis_x
  let y := dev.GetAxis axes dev.axis_y
  let r := x * x + y * y
  if r > 1 then (x / Real.sqrt r, y / Real.sqrt r) else (x, y)

/-- `GCAnalog::GetStatus` (`gc_poller.cpp` lines 209-217): apply the
radial deadzone to the clamped vector. -/
noncomputable def GCAnalog.GetStatus (dev : GCAnalog) (axes : Int → Int → Nat) :
    ℝ × ℝ :=
  let x := (dev.GetAnalog axes).1
  let y := (dev.GetAnalog axes).2
  let r := Real.sqrt (x * x + y * y)
  if r > (dev.deadzone : ℝ) then
    (x / r * (r - (dev.deadzone : ℝ)) / (1 - (dev.deadzone : ℝ)),
     y / r * (r - (dev.deadzone : ℝ)) / (1 - (dev.deadzone : ℝ)))
  else
    (0, 0)

/-- `GCAnalogFactory::Create` (`gc_poller.cpp` lines 256-264): rebuild
an analog device from a stored parameter set; missing keys fall back to
port 0, axis_x 0, axis_y 1, and the deadzone defaults to 0 and is
clamped into [0, 0.99]. -/
def GCAnalogFactory.Create (params : Common.ParamPackage) : GCAnalog :=
  let port := params.port.getD 0
  let axis_x := params.axis_x.getD 0
  let axis_y := params.axis_y.getD 1
  let deadzone := min (max (params.deadzone.getD 0) 0) (99 / 100 : ℚ)
  ⟨port, axis_x, axis_y, deadzone⟩

/-- The pending half-binding state of `GCAnalogFactory`
(`analog_x_axis`, `analog_y_axis`, `controller_number`), each an `int`
with -1 as the "unset" sentinel. Modelled from the spec where the
declaration is concerned: the member declarations live in `gc_poller.h`
(not part of the excerpt); all transitions below are from
`gc_poller.cpp`. -/
structure GCAnalogFactoryState where
  analog_x_axis : Int
  analog_y_axis : Int
  controller_number : Int
deriving DecidableEq

/-- Modelled from the spec: the initial pending state declared in
`gc_poller.h` (not part of the excerpt) — no half-binding pending. -/
def initAnalogState : GCAnalogFactoryState := ⟨-1, -1, -1⟩

/-- The per-sample body of `GCAnalogFactory::GetNextInput`
(`gc_poller.cpp` lines 285-299): skip a sample with an undefined axis or
with normalized deviation below 0.1; otherwise record it as the pending
x-axis when none is pending, or as the y-axis when one is pending, the
axis differs, and the port matches; otherwise drop it. -/
def analogStep (i : Int) (s : GCAnalogFactoryState) (pad : GCAdapter.GCPadStatus) :
    GCAnalogFactoryState :=
  match pad.axis with
  | none => s
  | some a =>
    if |((pad.axis_value : ℚ) - 128) / 128| < 1 / 10 then s
    else if s.analog_x_axis = -1 then
      { s with analog_x_axis := (a : Int), controller_number := i }
    else if s.analog_y_axis = -1 ∧ s.analog_x_axis ≠ (a : Int) ∧
        s.controller_number = i then
      { s with analog_y_axis := (a : Int) }
    else s

/-- `GCAnalogFactory::GetNextInput` (`gc_poller.cpp` lines 282-313):
drain all four queues completely through `analogStep`, then, when both
axes are pending, emit the completed binding and clear the pending
state. -/
def GCAnalogFactory.GetNextInput (s : GCAnalogFactoryState) (qs : PadQueues) :
    Common.ParamPackage × GCAnalogFactoryState × PadQueues :=
  let s0 := qs.q0.foldl (analogStep 0) s
  let s1 := qs.q1.foldl (analogStep 1) s0
  let s2 := qs.q2.foldl (analogStep 2) s1
  let s3 := qs.q3.foldl (analogStep 3) s2
  if s3.analog_x_axis ≠ -1 ∧ s3.analog_y_axis ≠ -1 then
    ({ engine := some "gcpad", port := some s3.controller_number,
       axis_x := some s3.analog_x_axis, axis_y := some s3.analog_y_axis },
     initAnalogState, ⟨[], [], [], []⟩)
  else
    ({}, s3, ⟨[], [], [], []⟩)

/-- The session-visible state of `GCAnalogFactory`: its polling flag,
its pending half-binding, the adapter's four sample queues, and the
adapter's capture (configuration) mode. The adapter's
`BeginConfiguration` / `EndConfiguration` are modelled from the spec as
toggling the producer capture mode (`gc_adapter` is not part of the
excerpt). -/
structure GCAnalogFactoryFull where
  polling : Bool
  pending : GCAnalogFactoryState
  queues : PadQueues
  captureMode : Bool
deriving DecidableEq

/-- `GCAnalogFactory::BeginConfiguration` (`gc_poller.cpp` lines
266-272): set the polling flag, clear all four queues, and enable the
producer's capture mode; the pending half-binding is not touched. -/
def GCAnalogFactory.BeginConfiguration (s : GCAnalogFactoryFull) :
    GCAnalogFactoryFull :=
  { polling := true, pending := s.pending, queues := ⟨[], [], [], []⟩,
    captureMode := true }

/-- `GCAnalogFactory::EndConfiguration` (`gc_poller.cpp` lines 274-280):
clear the polling flag, clear all four queues, and disable the
producer's capture mode; the pending half-binding is not touched. -/
def GCAnalogFactory.EndConfiguration (s : GCAnalogFactoryFull) :
    GCAnalogFactoryFull :=
  { polling := false, pending := s.pending, queues := ⟨[], [], [], []⟩,
    captureMode := false }

/-- The invariant of the pending half-binding: a y-axis is only ever
pending together with an x-axis, and a pending y-axis always differs
from the pending x-axis. -/
def pendingWF (s : GCAnalogFactoryState) : Prop :=
  (s.analog_x_axis = -1 → s.analog_y_axis = -1) ∧
  (s.analog_y_axis ≠ -1 → s.analog_y_axis ≠ s.analog_x_axis)

/-- A concrete snapshot used to instantiate the analog-stick theorem:
every axis idles at 128 (the exact center). -/
def centerAxes : Int → Int → Nat := fun _ _ => 128

end InputCommon

namespace Common

theorem conversion_no_overflow (t f : Nat) (ht : t ≤ tenYearsNs)
    (hf : f ≤ 2 ^ 32 - 1) :
    (Divide128On32 (Multiply64Into128 t f) 1000000000).1 = t * f / 1000000000 := by
  have ht64 : t < 2 ^ 64 := lt_of_le_of_lt ht (by decide)
  have hf64 : f < 2 ^ 64 := lt_of_le_of_lt hf (by decide)
  have hprod : t * f ≤ tenYearsNs * (2 ^ 32 - 1) := Nat.mul_le_mul ht hf
  have hprod128 : t * f < 2 ^ 128 := lt_of_le_of_lt hprod (by decide)
  have hquot : t * f / 1000000000 < 2 ^ 64 := by
    have h1 : t * f / 1000000000 ≤ tenYearsNs * (2 ^ 32 - 1) / 1000000000 :=
      Nat.div_le_div_right hprod
    exact lt_of_le_of_lt h1 (by decide)
  unfold Divide128On32 Multiply64Into128
  simp only [Nat.mod_eq_of_lt ht64, Nat.mod_eq_of_lt hf64]
  rw [Nat.mod_eq_of_lt hprod128]
  norm_num
  simpa using hquot

end Common

/-- C1: for every elapsed nanosecond count `t` with `0 ≤ t ≤` 10 years
in ns and every frequency `f` with `1 ≤ f ≤ 2^32 - 1`, `GetCPUCycles`
and `GetClockCycles` return exactly `⌊t * f / 1e9⌋`, computed without
overflow through the 128-bit intermediate product and exact truncating
division, with `GetCPUCycles` using the CPU-domain frequency and
`GetClockCycles` the peripheral-clock frequency. -/
theorem C1_cycle_conversion_exact (clock : Common.StandardWallClock) (t : Nat)
    (ht : t ≤ Common.tenYearsNs)
    (hcpu1 : 1 ≤ clock.emulated_cpu_frequency)
    (hcpu2 : clock.emulated_cpu_frequency ≤ 2 ^ 32 - 1)
    (hclk1 : 1 ≤ clock.emulated_clock_frequency)
    (hclk2 : clock.emulated_clock_frequency ≤ 2 ^ 32 - 1) :
    clock.GetCPUCycles t = t * clock.emulated_cpu_frequency / 1000000000 ∧
    clock.GetClockCycles t = t * clock.emulated_clock_frequency / 1000000000 :=
  ⟨Common.conversion_no_overflow t clock.emulated_cpu_frequency ht hcpu2,
   Common.conversion_no_overflow t clock.emulated_clock_frequency ht hclk2⟩

/-- Witness for C1: one second of elapsed time at a 1020 MHz CPU
frequency and a 27 MHz peripheral-clock frequency yields exactly those
many cycles. -/
theorem C1_cycle_conversion_exact_witness :
    (⟨1020000000, 27000000⟩ : Common.StandardWallClock).GetCPUCycles 1000000000 =
      1020000000 ∧
    (⟨1020000000, 27000000⟩ : Common.StandardWallClock).GetClockCycles 1000000000 =
      27000000 := by
  have h := C1_cycle_conversion_exact ⟨1020000000, 27000000⟩ 1000000000
    (by decide) (by decide) (by decide) (by decide) (by decide)
  exact ⟨h.1.trans (by decide), h.2.trans (by decide)⟩

namespace InputCommon

theorem buttonDrainPort_remainder (i : Int) (q : List GCAdapter.GCPadStatus) :
    ∀ params : Common.ParamPackage,
    (buttonDrainPort i q params).2 = drainRemainder q := by
  induction q with
  | nil => intro params; rfl
  | cons pad rest ih =>
    intro params
    unfold buttonDrainPort drainRemainder
    cases hm : matchButton pad.button with
    | some b => simp [isBindingSample, hm, List.dropWhile_cons]
    | none =>
      cases ha : pad.axis with
      | some a =>
        simp only [isBindingSample, hm, ha, Option.isSome_some, Option.isSome_none,
          Bool.false_or, Bool.not_true, List.dropWhile_cons]
        split <;> simp
      | none =>
        simp only [isBindingSample, hm, ha, Option.isSome_none, Bool.or_self,
          Bool.not_false, List.dropWhile_cons, if_pos]
        exact (ih _).trans rfl

theorem buttonDrainPort_button_isSome (i : Int) (q : List GCAdapter.GCPadStatus) :
    ∀ params : Common.ParamPackage,
    (buttonDrainPort i q params).1.button.isSome =
      (params.button.isSome || q.any isBindingSample) := by
  induction q with
  | nil => intro params; simp [buttonDrainPort]
  | cons pad rest ih =>
    intro params
    unfold buttonDrainPort
    cases hm : matchButton pad.button with
    | some b => simp [isBindingSample, hm]
    | none =>
      cases ha : pad.axis with
      | some a =>
        simp only [hm, ha]
        split <;> simp [isBindingSample, hm, ha]
      | none =>
        simp only [hm, ha]
        rw [ih]
        simp [isBindingSample, hm, ha]

theorem buttonDrainPort_port (i : Int) (q : List GCAdapter.GCPadStatus) :
    ∀ params : Common.ParamPackage,
    (buttonDrainPort i q params).1.port =
      if q.isEmpty then params.port else some i := by
  induction q with
  | nil => intro params; simp [buttonDrainPort]
  | cons pad rest ih =>
    intro params
    unfold buttonDrainPort
    cases hm : matchButton pad.button with
    | some b => simp [hm]
    | none =>
      cases ha : pad.axis with
      | some a =>
        simp only [hm, ha]
        split <;> simp
      | none =>
        simp only [hm, ha]
        rw [ih]
        split <;> simp

end InputCommon

/-- C2 fails as stated: with a matching sample queued on port 0 and
another on port 1, one invocation of `GCButtonFactory::GetNextInput`
consumes both samples (the `break` leaves only the inner per-port loop),
returns the port-1 binding, and leaves port 0's queue empty even though
its sample was not needed to produce the returned binding. -/
theorem C2_counterexample :
    (InputCommon.GCButtonFactory.GetNextInput
        ⟨[⟨GCAdapter.PAD_BUTTON_A, none, 0⟩], [⟨GCAdapter.PAD_BUTTON_B, none, 0⟩],
         [], []⟩).1.port = some 1 ∧
    (InputCommon.GCButtonFactory.GetNextInput
        ⟨[⟨GCAdapter.PAD_BUTTON_A, none, 0⟩], [⟨GCAdapter.PAD_BUTTON_B, none, 0⟩],
         [], []⟩).1.button = some GCAdapter.PAD_BUTTON_B ∧
    (InputCommon.GCButtonFactory.GetNextInput
        ⟨[⟨GCAdapter.PAD_BUTTON_A, none, 0⟩], [⟨GCAdapter.PAD_BUTTON_B, none, 0⟩],
         [], []⟩).2 = ⟨[], [], [], []⟩ := by
  decide

/-- C2 (amended): one invocation of `GCButtonFactory::GetNextInput`
returns a single parameter package. Each port's queue is drained up to
and including its first binding-producing sample (one matching a button
bit or carrying a defined axis); only the samples strictly after that
one are left unconsumed. Ports are visited in order 0..3 and each
visited port overwrites the shared package, so a binding is present
exactly when some port held a binding-producing sample, the package's
port key belongs to the highest-numbered non-empty queue, and
binding-producing samples of lower-numbered ports are consumed even
though the returned binding is not theirs. -/
theorem C2_amended_drain (qs : InputCommon.PadQueues) :
    ((InputCommon.GCButtonFactory.GetNextInput qs).2.q0 =
        InputCommon.drainRemainder qs.q0 ∧
      (InputCommon.GCButtonFactory.GetNextInput qs).2.q1 =
        InputCommon.drainRemainder qs.q1 ∧
      (InputCommon.GCButtonFactory.GetNextInput qs).2.q2 =
        InputCommon.drainRemainder qs.q2 ∧
      (InputCommon.GCButtonFactory.GetNextInput qs).2.q3 =
        InputCommon.drainRemainder qs.q3) ∧
    ((InputCommon.GCButtonFactory.GetNextInput qs).1.button.isSome =
      (qs.q0.any InputCommon.isBindingSample || qs.q1.any InputCommon.isBindingSample ||
       qs.q2.any InputCommon.isBindingSample || qs.q3.any InputCommon.isBindingSample)) ∧
    ((InputCommon.GCButtonFactory.GetNextInput qs).1.port =
      if ¬qs.q3.isEmpty then some 3
      else if ¬qs.q2.isEmpty then some 2
      else if ¬qs.q1.isEmpty then some 1
      else if ¬qs.q0.isEmpty then some 0
      else none) := by
  unfold InputCommon.GCButtonFactory.GetNextInput
  refine ⟨⟨?_, ?_, ?_, ?_⟩, ?_, ?_⟩
  · exact InputCommon.buttonDrainPort_remainder 0 qs.q0 _
  · exact InputCommon.buttonDrainPort_remainder 1 qs.q1 _
  · exact InputCommon.buttonDrainPort_remainder 2 qs.q2 _
  · exact InputCommon.buttonDrainPort_remainder 3 qs.q3 _
  · rw [InputCommon.buttonDrainPort_button_isSome, InputCommon.buttonDrainPort_button_isSome,
      InputCommon.buttonDrainPort_button_isSome, InputCommon.buttonDrainPort_button_isSome]
    simp [Bool.or_assoc]
  · rw [InputCommon.buttonDrainPort_port, InputCommon.buttonDrainPort_port,
      InputCommon.buttonDrainPort_port, InputCommon.buttonDrainPort_port]
    rcases h3 : qs.q3.isEmpty <;> rcases h2 : qs.q2.isEmpty <;>
      rcases h1 : qs.q1.isEmpty <;> rcases h0 : qs.q0.isEmpty <;> simp

/-- C3 fails as stated: the stored threshold is not 0.5 for both
directions. A sample with no matching button bit, a defined axis and raw
axis value 100 (not above 128) yields direction "-" with threshold
"-0.5", not "0.5". -/
theorem C3_counterexample :
    (InputCommon.GCButtonFactory.GetNextInput
        ⟨[⟨0, some 2, 100⟩], [], [], []⟩).1.direction = some "-" ∧
    (InputCommon.GCButtonFactory.GetNextInput
        ⟨[⟨0, some 2, 100⟩], [], [], []⟩).1.threshold = some (-(1 / 2) : ℚ) ∧
    (some (-(1 / 2) : ℚ) ≠ some (1 / 2 : ℚ)) := by
  refine ⟨rfl, rfl, by norm_num⟩

/-- C3 (amended): for every digitally captured sample whose button mask
matches no button in the fixed ordered list but whose axis is defined,
the capture emits the binding {engine, port, axis, button = STICK
sentinel, direction "+" if the raw axis value exceeds 128 else "-"},
with stored threshold "0.5" for direction "+" and "-0.5" for direction
"-"; the sample {buttons = 0, axis = 2, axis_value = 200} on port 0
yields {axis = 2, button = STICK, direction = "+"}. -/
theorem C3_amended_axis_fallback (i : Int) (pad : GCAdapter.GCPadStatus)
    (rest : List GCAdapter.GCPadStatus) (params : Common.ParamPackage) (a : Nat)
    (hm : InputCommon.matchButton pad.button = none) (ha : pad.axis = some a) :
    (InputCommon.buttonDrainPort i (pad :: rest) params).1.engine = some "gcpad" ∧
    (InputCommon.buttonDrainPort i (pad :: rest) params).1.port = some i ∧
    (InputCommon.buttonDrainPort i (pad :: rest) params).1.axis = some a ∧
    (InputCommon.buttonDrainPort i (pad :: rest) params).1.button =
      some GCAdapter.PAD_STICK ∧
    (InputCommon.buttonDrainPort i (pad :: rest) params).1.direction =
      some (if pad.axis_value > 128 then "+" else "-") ∧
    (InputCommon.buttonDrainPort i (pad :: rest) params).1.threshold =
      some (if pad.axis_value > 128 then (1 / 2 : ℚ) else -(1 / 2)) ∧
    (InputCommon.GCButtonFactory.GetNextInput
        ⟨[⟨0, some 2, 200⟩], [], [], []⟩).1.axis = some 2 ∧
    (InputCommon.GCButtonFactory.GetNextInput
        ⟨[⟨0, some 2, 200⟩], [], [], []⟩).1.button = some GCAdapter.PAD_STICK ∧
    (InputCommon.GCButtonFactory.GetNextInput
        ⟨[⟨0, some 2, 200⟩], [], [], []⟩).1.direction = some "+" := by
  refine ⟨?_, ?_, ?_, ?_, ?_, ?_, by decide, by decide, by decide⟩ <;>
    · unfold InputCommon.buttonDrainPort
      simp only [hm, ha]
      split <;> simp

/-- Witness for C3 (amended): the claim's own sample {buttons = 0,
axis = 2, axis_value = 200} on port 0 yields direction "+" with
threshold 0.5, and the mirror sample with axis_value 100 yields
direction "-" with threshold -0.5. -/
theorem C3_amended_axis_fallback_witness :
    (InputCommon.buttonDrainPort 0 [⟨0, some 2, 200⟩] {}).1.direction = some "+" ∧
    (InputCommon.buttonDrainPort 0 [⟨0, some 2, 200⟩] {}).1.threshold =
      some (1 / 2 : ℚ) ∧
    (InputCommon.buttonDrainPort 0 [⟨0, some 2, 100⟩] {}).1.direction = some "-" ∧
    (InputCommon.buttonDrainPort 0 [⟨0, some 2, 100⟩] {}).1.threshold =
      some (-(1 / 2) : ℚ) := by
  have h1 := C3_amended_axis_fallback 0 ⟨0, some 2, 200⟩ [] {} 2 (by decide) rfl
  have h2 := C3_amended_axis_fallback 0 ⟨0, some 2, 100⟩ [] {} 2 (by decide) rfl
  exact ⟨h1.2.2.2.2.1.trans (by norm_num), h1.2.2.2.2.2.1.trans (by norm_num),
    h2.2.2.2.2.1.trans (by norm_num), h2.2.2.2.2.2.1.trans (by norm_num)⟩

/-- C7: a captured sample whose button mask has both the "A" and "B"
bits set yields a binding for "A" and never for "B": the mask is tested
against the fixed enumeration order, in which "A" comes first, so the
first match wins. -/
theorem C7_tie_break (i : Int) (pad : GCAdapter.GCPadStatus)
    (rest : List GCAdapter.GCPadStatus) (params : Common.ParamPackage)
    (hA : pad.button &&& GCAdapter.PAD_BUTTON_A ≠ 0)
    (hB : pad.button &&& GCAdapter.PAD_BUTTON_B ≠ 0) :
    InputCommon.matchButton pad.button = some GCAdapter.PAD_BUTTON_A ∧
    (InputCommon.buttonDrainPort i (pad :: rest) params).1.button =
      some GCAdapter.PAD_BUTTON_A := by
  have hm : InputCommon.matchButton pad.button = some GCAdapter.PAD_BUTTON_A := by
    unfold InputCommon.matchButton InputCommon.buttonTestOrder
    rw [List.find?_cons_of_pos]
    simpa using hA
  refine ⟨hm, ?_⟩
  unfold InputCommon.buttonDrainPort
  simp only [hm]

/-- Witness for C7: the mask 768 has exactly the "A" (256) and "B" (512)
bits set, and the capture binds "A". -/
theorem C7_tie_break_witness :
    InputCommon.matchButton 768 = some GCAdapter.PAD_BUTTON_A ∧
    (InputCommon.buttonDrainPort 0 [⟨768, none, 0⟩] {}).1.button =
      some GCAdapter.PAD_BUTTON_A :=
  C7_tie_break 0 ⟨768, none, 0⟩ [] {} (by decide) (by decide)

/-- C4: `GCAxisButton::GetStatus` normalizes the raw axis byte to
`(raw - 128)/128` and returns true exactly when that value exceeds the
fixed 0.10 magnitude threshold in the configured direction (`> 0.10`
for "+", `< -0.10` for "-"); the threshold stored at construction never
influences the result. -/
theorem C4_axis_button_fixed_threshold (dev : InputCommon.GCAxisButton)
    (axes : Int → Nat → Nat) (th : ℚ) :
    (dev.GetStatus axes = true ↔
      (if dev.trigger_if_greater then
        ((axes dev.port dev.axis : ℚ) - 128) / 128 > 1 / 10
      else
        ((axes dev.port dev.axis : ℚ) - 128) / 128 < -(1 / 10))) ∧
    InputCommon.GCAxisButton.GetStatus
        ⟨dev.port, dev.axis, th, dev.trigger_if_greater⟩ axes =
      dev.GetStatus axes := by
  constructor
  · unfold InputCommon.GCAxisButton.GetStatus
    split <;> simp
  · rfl

/-- C5: during an analog capture session, a dequeued sample with no
defined axis or with normalized deviation below 0.1 leaves the state
unchanged; with nothing pending, the first passing sample is recorded as
the pending half-binding {axis, port}; with a half-binding pending, a
passing sample with a different axis on the pending port completes the
pair, and the invocation then emits {engine, port, axis_x = pending
axis, axis_y = new axis} and clears the pending state; a sample from a
different port leaves the pending half-binding unchanged. -/
theorem C5_analog_pairing (s : InputCommon.GCAnalogFactoryState) (i : Int)
    (pad : GCAdapter.GCPadStatus) :
    (pad.axis = none → InputCommon.analogStep i s pad = s) ∧
    (∀ a, pad.axis = some a → |((pad.axis_value : ℚ) - 128) / 128| < 1 / 10 →
      InputCommon.analogStep i s pad = s) ∧
    (∀ a, pad.axis = some a → ¬(|((pad.axis_value : ℚ) - 128) / 128| < 1 / 10) →
      s.analog_x_axis = -1 →
      InputCommon.analogStep i s pad =
        { s with analog_x_axis := (a : Int), controller_number := i }) ∧
    (∀ a, pad.axis = some a → ¬(|((pad.axis_value : ℚ) - 128) / 128| < 1 / 10) →
      s.analog_x_axis ≠ -1 → s.analog_y_axis = -1 → s.analog_x_axis ≠ (a : Int) →
      s.controller_number = i →
      InputCommon.analogStep i s pad = { s with analog_y_axis := (a : Int) }) ∧
    (s.analog_x_axis ≠ -1 → s.controller_number ≠ i →
      InputCommon.analogStep i s pad = s) ∧
    (s.analog_x_axis ≠ -1 → s.analog_y_axis ≠ -1 →
      InputCommon.GCAnalogFactory.GetNextInput s ⟨[], [], [], []⟩ =
        ({ engine := some "gcpad", port := some s.controller_number,
           axis_x := some s.analog_x_axis, axis_y := some s.analog_y_axis },
         InputCommon.initAnalogState, ⟨[], [], [], []⟩)) := by
  refine ⟨?_, ?_, ?_, ?_, ?_, ?_⟩
  · intro ha
    unfold InputCommon.analogStep
    simp [ha]
  · intro a ha hdz
    unfold InputCommon.analogStep
    simp only [ha]
    rw [if_pos hdz]
  · intro a ha hdz hx
    unfold InputCommon.analogStep
    simp only [ha]
    rw [if_neg hdz, if_pos hx]
  · intro a ha hdz hx hy hne hc
    unfold InputCommon.analogStep
    simp only [ha]
    rw [if_neg hdz, if_neg hx, if_pos ⟨hy, hne, hc⟩]
  · intro hx hc
    unfold InputCommon.analogStep
    cases ha : pad.axis with
    | none => rfl
    | some a =>
      simp only
      by_cases hdz : |((pad.axis_value : ℚ) - 128) / 128| < 1 / 10
      · rw [if_pos hdz]
      · rw [if_neg hdz, if_neg hx, if_neg]
        rintro ⟨-, -, hceq⟩
        exact hc hceq
  · intro hx hy
    unfold InputCommon.GCAnalogFactory.GetNextInput
    simp only [List.foldl_nil]
    rw [if_pos ⟨hx, hy⟩]

/-- Witness for C5: the spec's own scenario. The sample {axis 0, value
200} on port 1 becomes the pending half-binding; the interposed sample
{axis 2, value 200} on port 0 is dropped; the sample {axis 1, value 50}
on port 1 completes the pair; the invocation then emits {engine "gcpad",
port 1, axis_x 0, axis_y 1} and clears the pending state; and a centered
sample {axis 5, value 128} is filtered out by the deadzone. -/
theorem C5_analog_pairing_witness :
    InputCommon.analogStep 1 InputCommon.initAnalogState ⟨0, some 0, 200⟩ =
      ⟨0, -1, 1⟩ ∧
    InputCommon.analogStep 0 ⟨0, -1, 1⟩ ⟨0, some 2, 200⟩ = ⟨0, -1, 1⟩ ∧
    InputCommon.analogStep 1 ⟨0, -1, 1⟩ ⟨0, some 1, 50⟩ = ⟨0, 1, 1⟩ ∧
    InputCommon.GCAnalogFactory.GetNextInput ⟨0, 1, 1⟩ ⟨[], [], [], []⟩ =
      ({ engine := some "gcpad", port := some 1, axis_x := some 0,
         axis_y := some 1 },
       InputCommon.initAnalogState, ⟨[], [], [], []⟩) ∧
    InputCommon.analogStep 2 ⟨0, -1, 1⟩ ⟨0, some 5, 128⟩ = ⟨0, -1, 1⟩ := by
  refine ⟨?_, ?_, ?_, ?_, ?_⟩
  · exact (C5_analog_pairing InputCommon.initAnalogState 1 ⟨0, some 0, 200⟩).2.2.1 0
      rfl (by norm_num [abs_of_nonneg, abs_of_nonpos]) rfl
  · exact (C5_analog_pairing ⟨0, -1, 1⟩ 0 ⟨0, some 2, 200⟩).2.2.2.2.1
      (by norm_num) (by norm_num)
  · exact (C5_analog_pairing ⟨0, -1, 1⟩ 1 ⟨0, some 1, 50⟩).2.2.2.1 1
      rfl (by norm_num [abs_of_nonneg, abs_of_nonpos]) (by norm_num) rfl (by norm_num) rfl
  · exact (C5_analog_pairing ⟨0, 1, 1⟩ 1 ⟨0, none, 0⟩).2.2.2.2.2
      (by norm_num) (by norm_num)
  · exact (C5_analog_pairing ⟨0, -1, 1⟩ 2 ⟨0, some 5, 128⟩).2.1 5
      rfl (by norm_num)

/-- C6: `GCAnalog::GetStatus` with configured deadzone `d` normalizes
each raw axis byte with divisor 95, clamps the vector to the unit circle
when its radius exceeds 1, and applies the radial deadzone: when the
radius `r` of the clamped vector is at most `d` the output is exactly
(0, 0), and when `r > d` the output is `(x * scale, y * scale)` with
`scale = (r - d)/(r * (1 - d))`, whose magnitude `(r - d)/(1 - d)` ramps
linearly from 0 at `r = d` to 1 at `r = 1`. -/
theorem C6_radial_deadzone (dev : InputCommon.GCAnalog) (axes : Int → Int → Nat)
    (h0 : 0 ≤ dev.deadzone) (h1 : dev.deadzone < 1) :
    (∀ a : Int, dev.GetAxis axes a = ((axes dev.port a : ℝ) - 128) / 95) ∧
    ((dev.GetAnalog axes).1 * (dev.GetAnalog axes).1 +
      (dev.GetAnalog axes).2 * (dev.GetAnalog axes).2 ≤ 1) ∧
    (Real.sqrt ((dev.GetAnalog axes).1 * (dev.GetAnalog axes).1 +
        (dev.GetAnalog axes).2 * (dev.GetAnalog axes).2) ≤ (dev.deadzone : ℝ) →
      dev.GetStatus axes = (0, 0)) ∧
    (∀ r, r = Real.sqrt ((dev.GetAnalog axes).1 * (dev.GetAnalog axes).1 +
        (dev.GetAnalog axes).2 * (dev.GetAnalog axes).2) →
      r > (dev.deadzone : ℝ) →
      dev.GetStatus axes =
        ((dev.GetAnalog axes).1 *
          ((r - (dev.deadzone : ℝ)) / (r * (1 - (dev.deadzone : ℝ)))),
         (dev.GetAnalog axes).2 *
          ((r - (dev.deadzone : ℝ)) / (r * (1 - (dev.deadzone : ℝ))))) ∧
      Real.sqrt ((dev.GetStatus axes).1 * (dev.GetStatus axes).1 +
          (dev.GetStatus axes).2 * (dev.GetStatus axes).2) =
        (r - (dev.deadzone : ℝ)) / (1 - (dev.deadzone : ℝ))) := by
  have hD0 : (0 : ℝ) ≤ (dev.deadzone : ℝ) := by exact_mod_cast h0
  have hD1 : (dev.deadzone : ℝ) < 1 := by exact_mod_cast h1
  set X : ℝ := (dev.GetAnalog axes).1 with hX
  set Y : ℝ := (dev.GetAnalog axes).2 with hY
  set D : ℝ := (dev.deadzone : ℝ) with hDdef
  have hstat : dev.GetStatus axes =
      if Real.sqrt (X * X + Y * Y) > D then
        (X / Real.sqrt (X * X + Y * Y) * (Real.sqrt (X * X + Y * Y) - D) / (1 - D),
         Y / Real.sqrt (X * X + Y * Y) * (Real.sqrt (X * X + Y * Y) - D) / (1 - D))
      else (0, 0) := rfl
  have hclamp : X * X + Y * Y ≤ 1 := by
    rw [hX, hY]
    unfold InputCommon.GCAnalog.GetAnalog
    set x := dev.GetAxis axes dev.axis_x
    set y := dev.GetAxis axes dev.axis_y
    simp only
    by_cases h : x * x + y * y > 1
    · rw [if_pos h]
      have hrpos : (0 : ℝ) < x * x + y * y := lt_trans one_pos h
      have hs : Real.sqrt (x * x + y * y) * Real.sqrt (x * x + y * y) =
          x * x + y * y := Real.mul_self_sqrt (le_of_lt hrpos)
      simp only
      rw [div_mul_div_comm, div_mul_div_comm, div_add_div_same, hs,
        div_self (ne_of_gt hrpos)]
    · rw [if_neg h]
      exact le_of_not_lt h
  refine ⟨fun a => rfl, hclamp, ?_, ?_⟩
  · intro hle
    rw [hstat, if_neg (not_lt.mpr hle)]
  · intro r hrdef hgt
    have hr0 : (0 : ℝ) ≤ X * X + Y * Y :=
      add_nonneg (mul_self_nonneg X) (mul_self_nonneg Y)
    have hrr : Real.sqrt (X * X + Y * Y) * Real.sqrt (X * X + Y * Y) =
        X * X + Y * Y := Real.mul_self_sqrt hr0
    have hrpos : (0 : ℝ) < r := lt_of_le_of_lt hD0 hgt
    have hrne : r ≠ 0 := ne_of_gt hrpos
    have h1d : (0 : ℝ) < 1 - D := by linarith
    have h1dne : (1 : ℝ) - D ≠ 0 := ne_of_gt h1d
    have hrd : (0 : ℝ) ≤ r - D := by linarith
    have hout : dev.GetStatus axes =
        (X * ((r - D) / (r * (1 - D))), Y * ((r - D) / (r * (1 - D)))) := by
      rw [hstat, ← hrdef, if_pos hgt]
      have e1 : X / r * (r - D) / (1 - D) = X * ((r - D) / (r * (1 - D))) := by
        field_simp
      have e2 : Y / r * (r - D) / (1 - D) = Y * ((r - D) / (r * (1 - D))) := by
        field_simp
      rw [e1, e2]
    refine ⟨hout, ?_⟩
    rw [hout]
    have hq0 : (0 : ℝ) ≤ (r - D) / (1 - D) := div_nonneg hrd (le_of_lt h1d)
    have key : X * ((r - D) / (r * (1 - D))) * (X * ((r - D) / (r * (1 - D)))) +
        Y * ((r - D) / (r * (1 - D))) * (Y * ((r - D) / (r * (1 - D)))) =
        ((r - D) / (1 - D)) * ((r - D) / (1 - D)) := by
      have hXY : X * X + Y * Y = r * r := by rw [hrdef, hrr]
      field_simp
      linear_combination ((r - D) * (r - D) * ((1 - D) * (1 - D))) * hXY
    rw [key, Real.sqrt_mul_self hq0]

/-- Witness for C6: with deadzone 0.2 and every axis idle at the exact
center byte 128, the clamped vector is (0, 0), its radius 0 is at most
the deadzone, and the output is exactly (0, 0). -/
theorem C6_radial_deadzone_witness :
    (⟨0, 0, 1, 1 / 5⟩ : InputCommon.GCAnalog).GetStatus InputCommon.centerAxes =
      (0, 0) := by
  have h := C6_radial_deadzone ⟨0, 0, 1, 1 / 5⟩ InputCommon.centerAxes
    (by norm_num) (by norm_num)
  apply h.2.2.1
  have hxy : (⟨0, 0, 1, 1 / 5⟩ : InputCommon.GCAnalog).GetAnalog
      InputCommon.centerAxes = (0, 0) := by
    unfold InputCommon.GCAnalog.GetAnalog InputCommon.GCAnalog.GetAxis
      InputCommon.centerAxes
    norm_num
  rw [hxy]
  norm_num [Real.sqrt_zero]

/-- C8: `GCAnalogFactory::BeginConfiguration` and `EndConfiguration`
clear all four per-port sample queues and toggle both the polling flag
and the producer's capture mode, but leave the pending half-binding
(pending axis, pending port) unchanged, so an incomplete half-binding
survives into the next session. -/
theorem C8_session_bracketing (s : InputCommon.GCAnalogFactoryFull) :
    (InputCommon.GCAnalogFactory.BeginConfiguration s).pending = s.pending ∧
    (InputCommon.GCAnalogFactory.BeginConfiguration s).queues = ⟨[], [], [], []⟩ ∧
    (InputCommon.GCAnalogFactory.BeginConfiguration s).polling = true ∧
    (InputCommon.GCAnalogFactory.BeginConfiguration s).captureMode = true ∧
    (InputCommon.GCAnalogFactory.EndConfiguration s).pending = s.pending ∧
    (InputCommon.GCAnalogFactory.EndConfiguration s).queues = ⟨[], [], [], []⟩ ∧
    (InputCommon.GCAnalogFactory.EndConfiguration s).polling = false ∧
    (InputCommon.GCAnalogFactory.EndConfiguration s).captureMode = false :=
  ⟨rfl, rfl, rfl, rfl, rfl, rfl, rfl, rfl⟩

/-- C9: device reconstruction from a stored parameter set is total and
recovers locally: an axis-as-button binding whose direction text is
neither "+" nor "-" is built with direction "+" (trigger-if-greater)
and the anomaly is reported to the logger; a missing port falls back to
0, a missing axis threshold to 0.5, and the deadzone defaults to 0 and
is always clamped into [0, 0.99]. -/
theorem C9_create_fallbacks (params : Common.ParamPackage) :
    (∀ a, params.axis = some a →
      params.direction.getD "" ≠ "+" → params.direction.getD "" ≠ "-" →
      InputCommon.GCButtonFactory.Create params =
        (InputCommon.ButtonDevice.gcaxisbutton
          ⟨params.port.getD 0, a, params.threshold.getD (1 / 2), true⟩, true)) ∧
    (params.axis = none →
      InputCommon.GCButtonFactory.Create params =
        (InputCommon.ButtonDevice.gcbutton
          ⟨params.port.getD 0, params.button.getD 0⟩, false)) ∧
    (params.port = none → (InputCommon.GCAnalogFactory.Create params).port = 0) ∧
    (∀ a, params.axis = some a → params.threshold = none →
      ∃ tg logged, InputCommon.GCButtonFactory.Create params =
        (InputCommon.ButtonDevice.gcaxisbutton
          ⟨params.port.getD 0, a, 1 / 2, tg⟩, logged)) ∧
    (0 ≤ (InputCommon.GCAnalogFactory.Create params).deadzone ∧
      (InputCommon.GCAnalogFactory.Create params).deadzone ≤ 99 / 100) ∧
    (params.deadzone = none →
      (InputCommon.GCAnalogFactory.Create params).deadzone = 0) := by
  refine ⟨?_, ?_, ?_, ?_, ?_, ?_⟩
  · intro a ha hplus hminus
    simp [InputCommon.GCButtonFactory.Create, ha, hplus, hminus]
  · intro ha
    simp [InputCommon.GCButtonFactory.Create, ha]
  · intro hport
    simp [InputCommon.GCAnalogFactory.Create, hport]
  · intro a ha ht
    by_cases hplus : params.direction.getD "" = "+"
    · exact ⟨true, false, by simp [InputCommon.GCButtonFactory.Create, ha, ht, hplus]⟩
    · by_cases hminus : params.direction.getD "" = "-"
      · exact ⟨false, false,
          by simp [InputCommon.GCButtonFactory.Create, ha, ht, hplus, hminus]⟩
      · exact ⟨true, true,
          by simp [InputCommon.GCButtonFactory.Create, ha, ht, hplus, hminus]⟩
  · exact ⟨le_min (le_max_right _ _) (by norm_num), min_le_right _ _⟩
  · intro hdz
    simp only [InputCommon.GCAnalogFactory.Create, hdz, Option.getD_none, max_self]
    exact min_eq_left (by norm_num)

/-- Witness for C9: a parameter set with axis 1, unknown direction "up"
and everything else missing builds the axis-as-button device
{port 0, axis 1, threshold 0.5, trigger-if-greater} with the anomaly
logged; the empty parameter set builds the analog device with port 0 and
deadzone 0. -/
theorem C9_create_fallbacks_witness :
    InputCommon.GCButtonFactory.Create { axis := some 1, direction := some "up" } =
      (InputCommon.ButtonDevice.gcaxisbutton ⟨0, 1, 1 / 2, true⟩, true) ∧
    (InputCommon.GCAnalogFactory.Create {}).port = 0 ∧
    (InputCommon.GCAnalogFactory.Create {}).deadzone = 0 := by
  have h := C9_create_fallbacks { axis := some 1, direction := some "up" }
  have h2 := C9_create_fallbacks {}
  exact ⟨h.1 1 rfl (by decide) (by decide), h2.2.2.1 rfl, h2.2.2.2.2.2 rfl⟩

namespace InputCommon

theorem pendingWF_step (i : Int) (s : GCAnalogFactoryState)
    (pad : GCAdapter.GCPadStatus) (h : pendingWF s) :
    pendingWF (analogStep i s pad) := by
  unfold analogStep
  cases pad.axis with
  | none => exact h
  | some a =>
    simp only
    by_cases hdz : |((pad.axis_value : ℚ) - 128) / 128| < 1 / 10
    · rw [if_pos hdz]; exact h
    · rw [if_neg hdz]
      by_cases hx : s.analog_x_axis = -1
      · rw [if_pos hx]
        refine ⟨fun hax => ?_, fun hy => absurd (h.1 hx) hy⟩
        have hax2 : (a : Int) = -1 := hax
        omega
      · rw [if_neg hx]
        by_cases hcond : s.analog_y_axis = -1 ∧ s.analog_x_axis ≠ (a : Int) ∧
            s.controller_number = i
        · rw [if_pos hcond]
          exact ⟨fun hax => absurd hax hx, fun _ heq => hcond.2.1 heq.symm⟩
        · rw [if_neg hcond]
          exact h

theorem pendingWF_foldl (i : Int) (q : List GCAdapter.GCPadStatus)
    (s : GCAnalogFactoryState) (h : pendingWF s) :
    pendingWF (q.foldl (analogStep i) s) := by
  induction q generalizing s with
  | nil => exact h
  | cons pad rest ih => exact ih _ (pendingWF_step i s pad h)

end InputCommon

/-- C10: with a half-binding pending, a passing sample from the same
port that reports the pending axis id again is dropped and the pending
state is unchanged; the pending-state invariant (a pending y-axis always
differs from the pending x-axis) is preserved by every sample, and an
emitted analog binding therefore always has axis_x different from
axis_y. -/
theorem C10_pending_axis_distinct (s : InputCommon.GCAnalogFactoryState) (i : Int)
    (pad : GCAdapter.GCPadStatus) (qs : InputCommon.PadQueues) :
    (∀ a, pad.axis = some a → s.analog_x_axis = (a : Int) → s.analog_y_axis = -1 →
      s.controller_number = i → InputCommon.analogStep i s pad = s) ∧
    (InputCommon.pendingWF s → InputCommon.pendingWF (InputCommon.analogStep i s pad)) ∧
    (InputCommon.pendingWF s →
      (InputCommon.GCAnalogFactory.GetNextInput s qs).1.axis_x.isSome = true →
      (InputCommon.GCAnalogFactory.GetNextInput s qs).1.axis_x ≠
        (InputCommon.GCAnalogFactory.GetNextInput s qs).1.axis_y) := by
  refine ⟨?_, InputCommon.pendingWF_step i s pad, ?_⟩
  · intro a ha hx hy hc
    unfold InputCommon.analogStep
    simp only [ha]
    by_cases hdz : |((pad.axis_value : ℚ) - 128) / 128| < 1 / 10
    · rw [if_pos hdz]
    · rw [if_neg hdz, if_neg (by omega : ¬s.analog_x_axis = -1), if_neg]
      rintro ⟨-, hne, -⟩
      exact hne hx
  · intro hWF
    have hWF3 : InputCommon.pendingWF
        (qs.q3.foldl (InputCommon.analogStep 3)
          (qs.q2.foldl (InputCommon.analogStep 2)
            (qs.q1.foldl (InputCommon.analogStep 1)
              (qs.q0.foldl (InputCommon.analogStep 0) s)))) :=
      InputCommon.pendingWF_foldl 3 _ _
        (InputCommon.pendingWF_foldl 2 _ _
          (InputCommon.pendingWF_foldl 1 _ _
            (InputCommon.pendingWF_foldl 0 _ _ hWF)))
    unfold InputCommon.GCAnalogFactory.GetNextInput
    simp only
    split
    · rename_i hcond
      intro _
      simp only [ne_eq, Option.some.injEq]
      intro heq
      exact hWF3.2 hcond.2 heq.symm
    · intro hsome
      simp at hsome

/-- Witness for C10: with the half-binding {axis 0, port 1} pending, the
passing sample {axis 0, value 200} on port 1 is dropped and the state is
unchanged and still well-formed; and the completed state {axis_x 0,
axis_y 1} emits a binding whose two axes differ. -/
theorem C10_pending_axis_distinct_witness :
    InputCommon.analogStep 1 ⟨0, -1, 1⟩ ⟨0, some 0, 200⟩ = ⟨0, -1, 1⟩ ∧
    InputCommon.pendingWF (InputCommon.analogStep 1 ⟨0, -1, 1⟩ ⟨0, some 0, 200⟩) ∧
    (InputCommon.GCAnalogFactory.GetNextInput ⟨0, 1, 1⟩ ⟨[], [], [], []⟩).1.axis_x ≠
      (InputCommon.GCAnalogFactory.GetNextInput ⟨0, 1, 1⟩ ⟨[], [], [], []⟩).1.axis_y := by
  have h := C10_pending_axis_distinct ⟨0, -1, 1⟩ 1 ⟨0, some 0, 200⟩ ⟨[], [], [], []⟩
  have h2 := C10_pending_axis_distinct ⟨0, 1, 1⟩ 1 ⟨0, some 0, 200⟩ ⟨[], [], [], []⟩
  refine ⟨h.1 0 rfl rfl rfl rfl, ?_, ?_⟩
  · exact h.2.1 (by unfold InputCommon.pendingWF; decide)
  · exact h2.2.2 (by unfold InputCommon.pendingWF; decide) (by decide)
